/-
Verification of the kapibara-transport library core.

Shallow embedding of the repository's Rust source into Lean 4:
  * src/dns/resolver.rs   — `Resolver::resolve` (Default/System/Custom paths),
                             `sort_resolved`
  * src/dns/error.rs      — `ResolveError`
  * src/error.rs          — `ClientError`
  * src/tls/option.rs     — `TryFrom<TlsClientOption> for ClientConfig`,
                             `TryFrom<TlsServerOption> for ServerConfig`,
                             `NoServerCertVerifier`
  * src/tcp/client.rs     — `TcpClient::init`, `TcpClient::connect`
  * src/websocket/client.rs — `WebSocketClient::init`, `WebSocketClient::connect`,
                             and the byte-stream adapter
                             (`poll_fill_buf`, `consume`, `poll_read`, `poll_write`)
  * src/websocket/server.rs — the server-side adapter; its `poll_fill_buf`,
                             `consume`, `poll_read` and `poll_write` bodies are
                             line-for-line identical to the client-side ones
                             (only the underlying message type differs, with the
                             same constructors Binary/Text/Ping/Pong/Close), so
                             one model `WsAdapter` covers both.

External collaborators (tokio sockets, hickory DNS lookups, rustls PEM
parsing and certificate machinery) are modelled as explicit environment
parameters: the embedded functions are parametric in the outcome of each
external call, exactly at the points where the Rust code awaits them.
Machine integers that matter (ports, byte values) are modelled as `Nat`;
no arithmetic in the verified code can overflow the Rust types' ranges
in a way the claims depend on.
-/

import Mathlib

set_option linter.unusedVariables false

deriving instance DecidableEq for Except

/-! ## Basic data model: IP families, addresses, strategies -/

/-- Address family of an IP address (`IpAddr::V4` / `IpAddr::V6`). -/
inductive IpFamily where
  | v4
  | v6
deriving DecidableEq, Repr

/-- Model of `std::net::IpAddr`: the family plus an abstract identity
distinguishing different addresses of the same family. -/
structure IpAddress where
  family : IpFamily
  id : Nat
deriving DecidableEq, Repr

/-- Model of `std::net::SocketAddr`: an IP address paired with a port. -/
structure SockAddr where
  ip : IpAddress
  port : Nat
deriving DecidableEq, Repr

/-- Mirrors `SocketAddr::is_ipv4`. -/
def SockAddr.is_ipv4 (s : SockAddr) : Bool :=
  match s.ip.family with
  | .v4 => true
  | .v6 => false

/-- Mirrors `SocketAddr::is_ipv6`. -/
def SockAddr.is_ipv6 (s : SockAddr) : Bool :=
  match s.ip.family with
  | .v4 => false
  | .v6 => true

/-- Address-selection strategy, from `src/dns/option.rs`. -/
inductive Strategy where
  | Ipv4Only
  | Ipv6Only
  | Ipv4AndIpv6
  | Ipv6ThenIpv4
  | Ipv4ThenIpv6
deriving DecidableEq, Repr

/-- Mirrors `sort_resolved` in `src/dns/resolver.rs` (lines 187-204).  The
Rust function is an iterator transformer; on a materialised list the
`filter` arms keep the matching addresses in order and the `partition`
arms split the list preserving relative order, then chain the two parts. -/
def sort_resolved (result : List SockAddr) (strategy : Strategy) : List SockAddr :=
  match strategy with
  | .Ipv4AndIpv6 => result
  | .Ipv4Only => result.filter (fun s => s.is_ipv4)
  | .Ipv6Only => result.filter (fun s => s.is_ipv6)
  | .Ipv4ThenIpv6 =>
      let p := result.partition (fun s => s.is_ipv4)
      p.1 ++ p.2
  | .Ipv6ThenIpv4 =>
      let p := result.partition (fun s => s.is_ipv6)
      p.1 ++ p.2

/-! ## Error types, from `src/dns/error.rs` and `src/error.rs` -/

/-- Mirrors `ResolveError` in `src/dns/error.rs`.  Payloads of wrapped
foreign errors are modelled by their message strings. -/
inductive ResolveError where
  | emptyResolved
  | io (e : String)
  | resolve (e : String)
  | timeout
  | initErr (msg : String)
deriving DecidableEq, Repr

/-- Mirrors `TlsError` in `src/tls/error.rs`. -/
inductive TlsError where
  | io (e : String)
  | invalidCert (msg : String)
  | invalidKey (msg : String)
deriving DecidableEq, Repr

/-- Mirrors `ClientError` in `src/error.rs`.  The `#[from]` conversions used
by `?` in the source become the explicit constructors `io`, `dns`, `tls`. -/
inductive ClientError where
  | io (e : String)
  | dns (e : ResolveError)
  | tls (e : TlsError)
  | option (msg : String)
  | connect (msg : String)
deriving DecidableEq, Repr

/-! ## C4: sort_resolved strategy semantics -/

lemma SockAddr.not_is_ipv4 (s : SockAddr) : (!s.is_ipv4) = s.is_ipv6 := by
  cases h : s.ip.family <;> simp [SockAddr.is_ipv4, SockAddr.is_ipv6, h]

lemma SockAddr.not_is_ipv6 (s : SockAddr) : (!s.is_ipv6) = s.is_ipv4 := by
  cases h : s.ip.family <;> simp [SockAddr.is_ipv4, SockAddr.is_ipv6, h]

/-- C4: for every finite address list, `sort_resolved` under `Ipv4Only`
keeps exactly the IPv4 addresses in their original relative order, under
`Ipv6Only` exactly the IPv6 addresses, under `Ipv4AndIpv6` the input
unchanged, under `Ipv4ThenIpv6` all IPv4 addresses in order followed by
all IPv6 addresses in order, and under `Ipv6ThenIpv4` symmetrically. -/
theorem sort_resolved_strategy_spec (l : List SockAddr) :
    sort_resolved l .Ipv4Only = l.filter (fun s => s.is_ipv4) ∧
    sort_resolved l .Ipv6Only = l.filter (fun s => s.is_ipv6) ∧
    sort_resolved l .Ipv4AndIpv6 = l ∧
    sort_resolved l .Ipv4ThenIpv6 =
      l.filter (fun s => s.is_ipv4) ++ l.filter (fun s => s.is_ipv6) ∧
    sort_resolved l .Ipv6ThenIpv4 =
      l.filter (fun s => s.is_ipv6) ++ l.filter (fun s => s.is_ipv4) := by
  have h4 : (not ∘ fun s : SockAddr => s.is_ipv4) = fun s : SockAddr => s.is_ipv6 :=
    funext fun s => SockAddr.not_is_ipv4 s
  have h6 : (not ∘ fun s : SockAddr => s.is_ipv6) = fun s : SockAddr => s.is_ipv4 :=
    funext fun s => SockAddr.not_is_ipv6 s
  refine ⟨rfl, rfl, rfl, ?_, ?_⟩ <;>
    simp [sort_resolved, List.partition_eq_filter_filter, h4, h6]

/-! ## Resolver, from `src/dns/resolver.rs` -/

/-- Mirrors `DefaultResolveOption` (timeout as an opaque duration value). -/
structure DefaultResolveOption where
  timeout : Nat
  strategy : Strategy
deriving DecidableEq, Repr

/-- Outcome of `tokio::time::timeout(timeout, lookup_host((addr, port))).await`
in the `Resolver::Default` arm of `resolve`: the timer may elapse, the OS
lookup may fail with an I/O error, or it yields socket addresses. -/
inductive LookupHostOutcome where
  | elapsed
  | ioErr (e : String)
  | ok (addrs : List SockAddr)
deriving DecidableEq, Repr

/-- Mirrors the `Resolver::Default` arm of `Resolver::resolve`
(`src/dns/resolver.rs` lines 69-74): the double `?` turns an elapsed timer
into `ResolveError::Timeout` and a lookup I/O error into `ResolveError::Io`;
a successful lookup is passed through `sort_resolved` with the option's
strategy and returned as a success — with no emptiness check. -/
def Resolver.resolveDefault (option : DefaultResolveOption)
    (lookup : LookupHostOutcome) : Except ResolveError (List SockAddr) :=
  match lookup with
  | .elapsed => .error .timeout
  | .ioErr e => .error (.io e)
  | .ok result => .ok (sort_resolved result option.strategy)

/-- Outcome of `tokio::spawn(async move { resolver.lookup_ip(addr).await }).await`
in the `Resolver::System` / `Resolver::Custom` arms: the join may fail, the
hickory lookup may fail, or it yields IP addresses. -/
inductive LookupIpOutcome where
  | joinErr (e : String)
  | resolveErr (e : String)
  | ok (ips : List IpAddress)
deriving DecidableEq, Repr

/-- Mirrors the `Resolver::System` and `Resolver::Custom` arms of
`Resolver::resolve` (`src/dns/resolver.rs` lines 75-96, both arms are
textually identical): a join error maps to `ResolveError::Initialize` (constructor `initErr` here), a
hickory error to `ResolveError::Resolve` via `?`, and each resolved IP is
paired with the requested port.  Again no emptiness check. -/
def Resolver.resolveStub (lookup : LookupIpOutcome) (port : Nat) :
    Except ResolveError (List SockAddr) :=
  match lookup with
  | .joinErr e => .error (.initErr e)
  | .resolveErr e => .error (.resolve e)
  | .ok result => .ok (result.map (fun ip => { ip := ip, port := port }))

/-! ## C3: resolve on an empty post-filter result -/

/-- C3 counterexample: a `Default` resolver with strategy `Ipv4Only` whose
OS lookup succeeds with a single IPv6 address filters it away and returns
`Ok([])` — the empty sequence as a success — not `Err(EmptyResolved)`. -/
theorem resolve_empty_returns_ok_cex :
    Resolver.resolveDefault { timeout := 5, strategy := .Ipv4Only }
        (.ok [{ ip := { family := .v6, id := 0 }, port := 443 }]) = .ok [] ∧
    Resolver.resolveDefault { timeout := 5, strategy := .Ipv4Only }
        (.ok [{ ip := { family := .v6, id := 0 }, port := 443 }]) ≠
      .error .emptyResolved := by
  constructor
  · rfl
  · intro h
    simp [Resolver.resolveDefault] at h

/-- C3 amended: `Resolver::resolve` never produces `EmptyResolved` on any
path; when the lookup succeeds the `Default` arm returns the
strategy-filtered list as a success, even when that list is empty. -/
theorem resolve_never_emptyResolved (opt : DefaultResolveOption)
    (lkHost : LookupHostOutcome) (lkIp : LookupIpOutcome) (port : Nat) :
    (∀ addrs, Resolver.resolveDefault opt (.ok addrs) =
      .ok (sort_resolved addrs opt.strategy)) ∧
    Resolver.resolveDefault opt lkHost ≠ .error .emptyResolved ∧
    Resolver.resolveStub lkIp port ≠ .error .emptyResolved := by
  refine ⟨fun addrs => rfl, ?_, ?_⟩
  · cases lkHost <;> simp [Resolver.resolveDefault]
  · cases lkIp <;> simp [Resolver.resolveStub]

/-! ## TLS client policy, from `src/tls/option.rs` -/

/-- Mirrors `TlsClientOption` (`src/tls/option.rs` lines 20-38). -/
structure TlsClientOption where
  insecure : Bool
  alpn : List String
  enable_sni : Bool
  server_name : String
deriving DecidableEq, Repr

/-- TLS signature schemes.  The 13 constructors other than `rsaPssSha1`
are the rustls `SignatureScheme` values named in the source's
`supported_verify_schemes`; `rsaPssSha1` is included so that the
spec-claimed scheme set is expressible for comparison. -/
inductive SignatureScheme where
  | ecdsaNistp256Sha256
  | ecdsaNistp384Sha384
  | ecdsaNistp521Sha512
  | ecdsaSha1Legacy
  | ed25519
  | ed448
  | rsaPkcs1Sha1
  | rsaPkcs1Sha256
  | rsaPkcs1Sha384
  | rsaPkcs1Sha512
  | rsaPssSha1
  | rsaPssSha256
  | rsaPssSha384
  | rsaPssSha512
deriving DecidableEq, Repr, Fintype

/-- Result token `ServerCertVerified::assertion()`. -/
inductive ServerCertVerified where
  | assertion
deriving DecidableEq, Repr

/-- Result token `HandshakeSignatureValid::assertion()`. -/
inductive HandshakeSignatureValid where
  | assertion
deriving DecidableEq, Repr

/-- Arguments of `ServerCertVerifier::verify_server_cert`: end-entity cert,
intermediates, server name, OCSP response, current time. -/
structure CertVerifyInput where
  endEntity : List Nat
  intermediates : List (List Nat)
  serverName : String
  ocspResponse : List Nat
  now : Nat

/-- Arguments of `verify_tls12_signature` / `verify_tls13_signature`:
message, certificate, digitally-signed struct. -/
structure SigVerifyInput where
  message : List Nat
  cert : List Nat
  dss : List Nat

/-- Mirrors `NoServerCertVerifier::verify_server_cert`
(`src/tls/option.rs` lines 153-162): ignores every argument and returns
`Ok(ServerCertVerified::assertion())`. -/
def NoServerCertVerifier.verify_server_cert (input : CertVerifyInput) :
    Except String ServerCertVerified :=
  .ok .assertion

/-- Mirrors `NoServerCertVerifier::verify_tls12_signature`
(`src/tls/option.rs` lines 164-171). -/
def NoServerCertVerifier.verify_tls12_signature (input : SigVerifyInput) :
    Except String HandshakeSignatureValid :=
  .ok .assertion

/-- Mirrors `NoServerCertVerifier::verify_tls13_signature`
(`src/tls/option.rs` lines 173-180). -/
def NoServerCertVerifier.verify_tls13_signature (input : SigVerifyInput) :
    Except String HandshakeSignatureValid :=
  .ok .assertion

/-- Mirrors `NoServerCertVerifier::supported_verify_schemes`
(`src/tls/option.rs` lines 182-198): the source's 13-element vector, in
source order. -/
def NoServerCertVerifier.supported_verify_schemes : List SignatureScheme :=
  [ .ecdsaNistp256Sha256,
    .ecdsaNistp384Sha384,
    .ecdsaNistp521Sha512,
    .ecdsaSha1Legacy,
    .ed25519,
    .ed448,
    .rsaPkcs1Sha1,
    .rsaPkcs1Sha256,
    .rsaPkcs1Sha384,
    .rsaPkcs1Sha512,
    .rsaPssSha256,
    .rsaPssSha384,
    .rsaPssSha512 ]

/-- Which certificate verifier the built `ClientConfig` carries:
`with_custom_certificate_verifier(Arc::new(NoServerCertVerifier))` on the
insecure path, the webpki-roots store otherwise. -/
inductive CertVerifierChoice where
  | noServerCertVerifier
  | webpkiRoots
deriving DecidableEq, Repr

/-- Observable part of `rustls::ClientConfig` relevant to the library:
the installed verifier, the SNI flag, and the ALPN protocol list (byte
strings).  Freshly built configs carry `enable_sni = true` and an empty
ALPN list (rustls defaults). -/
structure RustlsClientConfig where
  verifier : CertVerifierChoice
  enable_sni : Bool
  alpn_protocols : List (List Nat)
deriving DecidableEq, Repr

/-- UTF-8 bytes of a string, as `String::into_bytes` produces. -/
def strBytes (s : String) : List Nat :=
  s.toUTF8.toList.map (fun b => b.toNat)

/-- Mirrors `TryFrom<TlsClientOption> for rustls::ClientConfig`
(`src/tls/option.rs` lines 55-85): insecure installs the no-op verifier,
otherwise the webpki root store; `enable_sni` is copied from the option;
ALPN is set from the option's strings when non-empty. -/
def tlsClientConfigTryFrom (opt : TlsClientOption) :
    Except TlsError RustlsClientConfig :=
  let config : RustlsClientConfig :=
    if opt.insecure then
      { verifier := .noServerCertVerifier, enable_sni := true, alpn_protocols := [] }
    else
      { verifier := .webpkiRoots, enable_sni := true, alpn_protocols := [] }
  let config := { config with enable_sni := opt.enable_sni }
  let config :=
    if opt.alpn.isEmpty then config
    else { config with alpn_protocols := opt.alpn.map strBytes }
  .ok config

/-! ## C8: insecure-mode certificate verifier -/

/-- Scheme set as the spec sentence claims it, for comparison with the
source: "ECDSA P256/P384/P521, ECDSA SHA1 legacy, Ed25519, Ed448,
RSA-PKCS1 with SHA1/256/384/512, and RSA-PSS with SHA1/256/384/512". -/
def claimedInsecureSchemes : List SignatureScheme :=
  [ .ecdsaNistp256Sha256,
    .ecdsaNistp384Sha384,
    .ecdsaNistp521Sha512,
    .ecdsaSha1Legacy,
    .ed25519,
    .ed448,
    .rsaPkcs1Sha1,
    .rsaPkcs1Sha256,
    .rsaPkcs1Sha384,
    .rsaPkcs1Sha512,
    .rsaPssSha1,
    .rsaPssSha256,
    .rsaPssSha384,
    .rsaPssSha512 ]

/-- C8 counterexample: the claimed scheme set lists RSA-PSS with SHA1, but
the source's `supported_verify_schemes` contains no RSA-PSS-SHA1 entry
(its PSS entries are SHA256/384/512 only), so the "exactly" fails. -/
theorem insecure_schemes_cex :
    SignatureScheme.rsaPssSha1 ∈ claimedInsecureSchemes ∧
    SignatureScheme.rsaPssSha1 ∉ NoServerCertVerifier.supported_verify_schemes := by
  decide

/-- C8 amended: with `insecure = true` the built client config installs the
`NoServerCertVerifier` (and copies `enable_sni`); that verifier accepts
every certificate chain and every TLS 1.2/1.3 signature, and its supported
scheme set is exactly the claimed set minus RSA-PSS-SHA1 (i.e. ECDSA
P256/P384/P521, ECDSA SHA1 legacy, Ed25519, Ed448, RSA-PKCS1 with
SHA1/256/384/512, RSA-PSS with 256/384/512). -/
theorem insecure_tls_config_spec (opt : TlsClientOption)
    (h : opt.insecure = true) :
    (∃ cfg, tlsClientConfigTryFrom opt = .ok cfg ∧
      cfg.verifier = .noServerCertVerifier ∧
      cfg.enable_sni = opt.enable_sni) ∧
    (∀ input, NoServerCertVerifier.verify_server_cert input = .ok .assertion) ∧
    (∀ input, NoServerCertVerifier.verify_tls12_signature input = .ok .assertion) ∧
    (∀ input, NoServerCertVerifier.verify_tls13_signature input = .ok .assertion) ∧
    (∀ s : SignatureScheme, s ∈ NoServerCertVerifier.supported_verify_schemes ↔
      s ∈ claimedInsecureSchemes.erase .rsaPssSha1) := by
  refine ⟨?_, fun i => rfl, fun i => rfl, fun i => rfl, by decide⟩
  have hc : tlsClientConfigTryFrom opt =
      .ok { verifier := .noServerCertVerifier,
            enable_sni := opt.enable_sni,
            alpn_protocols :=
              if opt.alpn.isEmpty then [] else opt.alpn.map strBytes } := by
    unfold tlsClientConfigTryFrom
    rw [h]
    by_cases ha : opt.alpn.isEmpty <;> simp [ha]
  exact ⟨_, hc, rfl, rfl⟩

/-- C8 witness: the amended theorem applied to a concrete insecure option. -/
theorem insecure_tls_config_spec_witness :
    (∃ cfg, tlsClientConfigTryFrom
        { insecure := true, alpn := [], enable_sni := false, server_name := "" } =
          .ok cfg ∧
      cfg.verifier = .noServerCertVerifier ∧
      cfg.enable_sni = false) ∧
    (∀ input, NoServerCertVerifier.verify_server_cert input = .ok .assertion) ∧
    (∀ input, NoServerCertVerifier.verify_tls12_signature input = .ok .assertion) ∧
    (∀ input, NoServerCertVerifier.verify_tls13_signature input = .ok .assertion) ∧
    (∀ s : SignatureScheme, s ∈ NoServerCertVerifier.supported_verify_schemes ↔
      s ∈ claimedInsecureSchemes.erase .rsaPssSha1) :=
  insecure_tls_config_spec
    { insecure := true, alpn := [], enable_sni := false, server_name := "" } rfl

/-! ## Client init, from `src/tcp/client.rs` and `src/websocket/client.rs` -/

/-- Mirrors `TcpClientOption` (`src/tcp/option.rs`). -/
structure TcpClientOption where
  addr : String
  port : Nat
  tcp_nodelay : Bool
deriving DecidableEq, Repr

/-- Mirrors `WebSocketClientOption` (`src/websocket/option.rs`). -/
structure WebSocketClientOption where
  addr : String
  port : Nat
  path : String
  tcp_nodelay : Bool
deriving DecidableEq, Repr

/-- Environment of the init functions: the outcomes of the external calls
they make.  `parseServerName` models `ServerName::try_from` (error text on
failure), `parseIp` models `IpAddr::from_str`, `blockResolve` models
`resolver.block_resolve(addr, port)` with its iterator collected, and
`buildUri` models `Uri::builder()...build()` applied to scheme,
path-and-query and authority. -/
structure InitEnv where
  parseServerName : String → Except String Nat
  parseIp : String → Option IpAddress
  blockResolve : String → Nat → Except ResolveError (List SockAddr)
  buildUri : String → String → String → Except String Nat

/-- Model of the constructed `TcpClient` value. -/
structure TcpClientModel where
  addr : List SockAddr
  tls_conn : Option (RustlsClientConfig × Nat)
  tcp_nodelay : Bool
deriving DecidableEq, Repr

/-- Mirrors the TLS prelude of `TcpClient::init` (`src/tcp/client.rs`
lines 31-44): choose `server_name` (explicit option value if non-empty,
else the dial address), parse it — failure becomes
`ClientError::Option(msg)` — then build the TLS config, whose failure
becomes `ClientError::Tls` via `?`. -/
def TcpClient.initTlsConn (env : InitEnv) (optAddr : String)
    (tls_opt : Option TlsClientOption) :
    Except ClientError (Option (RustlsClientConfig × Nat)) :=
  match tls_opt with
  | some t =>
      match env.parseServerName
          (if t.server_name.isEmpty then optAddr else t.server_name) with
      | .error e => .error (.option e)
      | .ok server_name =>
          match tlsClientConfigTryFrom t with
          | .error e => .error (.tls e)
          | .ok config => .ok (some (config, server_name))
  | none => .ok none

/-- Mirrors the address computation shared by `TcpClient::init` (lines
46-52) and `WebSocketClient::init` (lines 71-74): an IP-literal `addr`
short-circuits to a singleton list; otherwise `block_resolve` is invoked
and its iterator collected, errors converted by `?` into
`ClientError::Dns`. -/
def clientInitAddrs (env : InitEnv) (addr : String) (port : Nat) :
    Except ClientError (List SockAddr) :=
  match env.parseIp addr with
  | some ip => .ok [{ ip := ip, port := port }]
  | none =>
      match env.blockResolve addr port with
      | .error e => .error (.dns e)
      | .ok res => .ok res

/-- Mirrors `TcpClient::init` (`src/tcp/client.rs` lines 26-63): TLS
prelude, address computation, then the emptiness check that fails with
`ClientError::Option("unknown address")`. -/
def TcpClient.init (env : InitEnv) (opt : TcpClientOption)
    (tls_opt : Option TlsClientOption) : Except ClientError TcpClientModel :=
  match TcpClient.initTlsConn env opt.addr tls_opt with
  | .error e => .error e
  | .ok tls_conn =>
      match clientInitAddrs env opt.addr opt.port with
      | .error e => .error e
      | .ok addr =>
          if addr.isEmpty then .error (.option "unknown address")
          else .ok { addr := addr, tls_conn := tls_conn, tcp_nodelay := opt.tcp_nodelay }

/-- Mirrors `WsConnector` as used by `WebSocketClient::init`: either
`Connector::Rustls(Arc::new(config))` or `Connector::Plain`. -/
inductive WsConnectorModel where
  | rustls (config : RustlsClientConfig)
  | plain
deriving DecidableEq, Repr

/-- Model of the constructed `WebSocketClient` value. -/
structure WebSocketClientModel where
  uri : Nat
  addrs : List SockAddr
  ws_conn : WsConnectorModel
  tcp_nodelay : Bool
deriving DecidableEq, Repr

/-- Mirrors the connector/URI prelude of `WebSocketClient::init`
(`src/websocket/client.rs` lines 47-69): with TLS, build the config
(failure `ClientError::Tls` via `?`) and a `wss` URI; without, a `ws`
URI with `Connector::Plain`; URI build failures become
`ClientError::Option(msg)`.  The authority is `format!("{}:{}", addr, port)`. -/
def WebSocketClient.initConnUri (env : InitEnv) (opt : WebSocketClientOption)
    (tls_opt : Option TlsClientOption) :
    Except ClientError (WsConnectorModel × Nat) :=
  match tls_opt with
  | some t =>
      match tlsClientConfigTryFrom t with
      | .error e => .error (.tls e)
      | .ok config =>
          match env.buildUri "wss" opt.path
              (opt.addr ++ ":" ++ toString opt.port) with
          | .error e => .error (.option e)
          | .ok uri => .ok (.rustls config, uri)
  | none =>
      match env.buildUri "ws" opt.path
          (opt.addr ++ ":" ++ toString opt.port) with
      | .error e => .error (.option e)
      | .ok uri => .ok (.plain, uri)

/-- Mirrors `WebSocketClient::init` (`src/websocket/client.rs` lines
42-82): connector/URI prelude, then the address computation — and no
emptiness check before returning `Ok(Self {...})`. -/
def WebSocketClient.init (env : InitEnv) (opt : WebSocketClientOption)
    (tls_opt : Option TlsClientOption) :
    Except ClientError WebSocketClientModel :=
  match WebSocketClient.initConnUri env opt tls_opt with
  | .error e => .error e
  | .ok cu =>
      match clientInitAddrs env opt.addr opt.port with
      | .error e => .error e
      | .ok addrs =>
          .ok { uri := cu.2, addrs := addrs, ws_conn := cu.1,
                tcp_nodelay := opt.tcp_nodelay }

/-! ## C2: empty resolved address list at init -/

/-- Concrete environment in which `addr` is not an IP literal and
resolution succeeds with zero addresses. -/
def emptyResolveEnv : InitEnv where
  parseServerName := fun _ => .ok 0
  parseIp := fun _ => none
  blockResolve := fun _ _ => .ok []
  buildUri := fun _ _ _ => .ok 0

/-- C2 counterexample: with a non-IP-literal `addr` and an empty resolved
list, `WebSocketClient::init` does **not** fail — it returns a constructed
client whose stored address list is empty (there is no emptiness check in
`src/websocket/client.rs` lines 71-82). -/
theorem ws_init_empty_addrs_cex :
    WebSocketClient.init emptyResolveEnv
        { addr := "example.com", port := 80, path := "/x", tcp_nodelay := false }
        none =
      .ok { uri := 0, addrs := [], ws_conn := .plain, tcp_nodelay := false } ∧
    ∀ msg, WebSocketClient.init emptyResolveEnv
        { addr := "example.com", port := 80, path := "/x", tcp_nodelay := false }
        none ≠ .error (.option msg) := by
  refine ⟨rfl, fun msg h => ?_⟩
  exact Except.noConfusion h

/-- C2 amended: when `addr` is not an IP literal and resolution yields an
empty list (and the preceding TLS / URI prelude succeeds), `TcpClient::init`
fails fast with `ClientError::Option("unknown address")`, but
`WebSocketClient::init` performs no such check and returns a client with
an empty stored address list. -/
theorem client_init_empty_addrs_spec (env : InitEnv)
    (tls_opt : Option TlsClientOption) :
    (∀ (opt : TcpClientOption) tc,
      TcpClient.initTlsConn env opt.addr tls_opt = .ok tc →
      env.parseIp opt.addr = none →
      env.blockResolve opt.addr opt.port = .ok [] →
      TcpClient.init env opt tls_opt = .error (.option "unknown address")) ∧
    (∀ (opt : WebSocketClientOption) cu,
      WebSocketClient.initConnUri env opt tls_opt = .ok cu →
      env.parseIp opt.addr = none →
      env.blockResolve opt.addr opt.port = .ok [] →
      WebSocketClient.init env opt tls_opt =
        .ok { uri := cu.2, addrs := [], ws_conn := cu.1,
              tcp_nodelay := opt.tcp_nodelay }) := by
  constructor
  · intro opt tc htls hip hres
    unfold TcpClient.init clientInitAddrs
    rw [htls, hip, hres]
    rfl
  · intro opt cu hcu hip hres
    unfold WebSocketClient.init clientInitAddrs
    rw [hcu, hip, hres]

/-- C2 witness: the amended theorem applied in the concrete empty-resolve
environment. -/
theorem client_init_empty_addrs_spec_witness :
    TcpClient.init emptyResolveEnv
        { addr := "example.com", port := 80, tcp_nodelay := true } none =
      .error (.option "unknown address") ∧
    WebSocketClient.init emptyResolveEnv
        { addr := "example.com", port := 80, path := "/y", tcp_nodelay := true }
        none =
      .ok { uri := 0, addrs := [], ws_conn := .plain, tcp_nodelay := true } :=
  ⟨(client_init_empty_addrs_spec emptyResolveEnv none).1
      { addr := "example.com", port := 80, tcp_nodelay := true } none rfl rfl rfl,
    (client_init_empty_addrs_spec emptyResolveEnv none).2
      { addr := "example.com", port := 80, path := "/y", tcp_nodelay := true }
      (.plain, 0) rfl rfl rfl⟩

/-! ## Client connect, from `src/tcp/client.rs` and `src/websocket/client.rs`

The external calls (`TcpStream::connect`, `tls_conn.connect`,
`client_async_tls_with_config`) are environment parameters; sockets and
streams are abstract identities (`Nat`).  Errors carry their message
strings. -/

/-- Mirrors `TcpStream` (`src/tcp/stream.rs`): `Raw(..)` or
`Tls(TlsStream::Client(..))`. -/
inductive TcpStreamModel where
  | raw (s : Nat)
  | tls (s : Nat)
deriving DecidableEq, Repr

/-- Body of the `Ok(s)` arm of the address walk in `TcpClient::connect`
(`src/tcp/client.rs` lines 73-85): with TLS configured, drive the TLS
handshake with the precomputed server name — its `io::Error` propagates
via `?` as `ClientError::Io` — otherwise return the raw stream.
(`set_nodelay` has its result discarded and no observable effect here.) -/
def TcpClient.connectSuccess (tlsHandshake : Nat → Nat → Except String Nat)
    (tls_conn : Option (RustlsClientConfig × Nat)) (s : Nat) :
    Except ClientError TcpStreamModel :=
  match tls_conn with
  | some p =>
      match tlsHandshake p.2 s with
      | .ok t => .ok (.tls t)
      | .error e => .error (.io e)
  | none => .ok (.raw s)

/-- Mirrors the `for addr in self.addr.iter()` walk of `TcpClient::connect`
(`src/tcp/client.rs` lines 69-95), with the `err` accumulator made an
explicit parameter: each connect failure is remembered and the walk
continues; after the list, `Some(err)` surfaces as `ClientError::Io` and
`None` as `ResolveError::EmptyResolved` lifted into `ClientError::Dns`. -/
def TcpClient.connectLoop (tcpConnect : SockAddr → Except String Nat)
    (tlsHandshake : Nat → Nat → Except String Nat)
    (tls_conn : Option (RustlsClientConfig × Nat)) :
    List SockAddr → Option String → Except ClientError TcpStreamModel
  | [], none => .error (.dns .emptyResolved)
  | [], some e => .error (.io e)
  | a :: rest, err =>
      match tcpConnect a with
      | .ok s => TcpClient.connectSuccess tlsHandshake tls_conn s
      | .error e => TcpClient.connectLoop tcpConnect tlsHandshake tls_conn rest (some e)

/-- Mirrors `TcpClient::connect` entry: the walk starts with `err = None`. -/
def TcpClient.connect (tcpConnect : SockAddr → Except String Nat)
    (tlsHandshake : Nat → Nat → Except String Nat) (c : TcpClientModel) :
    Except ClientError TcpStreamModel :=
  TcpClient.connectLoop tcpConnect tlsHandshake c.tls_conn c.addr none

/-- Model of a just-constructed `WebSocketClientStream`
(`WebSocketClientStream::new`, `src/websocket/client.rs` lines 126-133):
the split halves of the handshake's socket plus an empty chunk buffer. -/
structure WebSocketClientStreamModel where
  socket : Nat
  chunk : Option (List Nat)
deriving DecidableEq, Repr

/-- Mirrors `WebSocketClientStream::new`. -/
def WebSocketClientStream.new (socket : Nat) : WebSocketClientStreamModel :=
  { socket := socket, chunk := none }

/-- Body of the `Ok(stream)` arm of `WebSocketClient::connect`
(`src/websocket/client.rs` lines 92-105): run
`client_async_tls_with_config(&self.uri, stream, None, Some(self.ws_conn))`;
a handshake failure is mapped by `map_err` to
`ClientError::Connect(e.to_string())` and propagates via `?`; success
wraps the socket in `WebSocketClientStream::new`. -/
def WebSocketClient.connectSuccess
    (wsHandshake : Nat → WsConnectorModel → Nat → Except String Nat)
    (uri : Nat) (conn : WsConnectorModel) (stream : Nat) :
    Except ClientError WebSocketClientStreamModel :=
  match wsHandshake uri conn stream with
  | .ok socket => .ok (WebSocketClientStream.new socket)
  | .error e => .error (.connect e)

/-- Mirrors the address walk of `WebSocketClient::connect`
(`src/websocket/client.rs` lines 88-116), `err` accumulator explicit. -/
def WebSocketClient.connectLoop (tcpConnect : SockAddr → Except String Nat)
    (wsHandshake : Nat → WsConnectorModel → Nat → Except String Nat)
    (uri : Nat) (conn : WsConnectorModel) :
    List SockAddr → Option String → Except ClientError WebSocketClientStreamModel
  | [], none => .error (.dns .emptyResolved)
  | [], some e => .error (.io e)
  | a :: rest, err =>
      match tcpConnect a with
      | .ok stream => WebSocketClient.connectSuccess wsHandshake uri conn stream
      | .error e =>
          WebSocketClient.connectLoop tcpConnect wsHandshake uri conn rest (some e)

/-- Mirrors `WebSocketClient::connect` entry. -/
def WebSocketClient.connect (tcpConnect : SockAddr → Except String Nat)
    (wsHandshake : Nat → WsConnectorModel → Nat → Except String Nat)
    (c : WebSocketClientModel) : Except ClientError WebSocketClientStreamModel :=
  WebSocketClient.connectLoop tcpConnect wsHandshake c.uri c.ws_conn c.addrs none

/-! ## C5 / C7: address-walk semantics of connect -/

lemma tcpConnectLoop_all_fail
    (tcpConnect : SockAddr → Except String Nat)
    (tlsHandshake : Nat → Nat → Except String Nat)
    (tls_conn : Option (RustlsClientConfig × Nat)) :
    ∀ (l : List SockAddr) (a : SockAddr) (errf : SockAddr → String)
      (err0 : Option String),
      (∀ x ∈ l ++ [a], tcpConnect x = .error (errf x)) →
      TcpClient.connectLoop tcpConnect tlsHandshake tls_conn (l ++ [a]) err0 =
        .error (.io (errf a)) := by
  intro l
  induction l with
  | nil =>
      intro a errf err0 h
      have ha := h a (by simp)
      simp [TcpClient.connectLoop, ha]
  | cons x xs ih =>
      intro a errf err0 h
      have hx := h x (by simp)
      have hrest : ∀ y ∈ xs ++ [a], tcpConnect y = .error (errf y) := by
        intro y hy
        exact h y (by simp at hy ⊢; tauto)
      simp only [List.cons_append, TcpClient.connectLoop, hx]
      exact ih a errf (some (errf x)) hrest

lemma tcpConnectLoop_first_success
    (tcpConnect : SockAddr → Except String Nat)
    (tlsHandshake : Nat → Nat → Except String Nat)
    (tls_conn : Option (RustlsClientConfig × Nat)) :
    ∀ (pre post : List SockAddr) (a : SockAddr) (s : Nat) (err0 : Option String),
      (∀ x ∈ pre, ∃ e, tcpConnect x = .error e) →
      tcpConnect a = .ok s →
      TcpClient.connectLoop tcpConnect tlsHandshake tls_conn (pre ++ a :: post) err0 =
        TcpClient.connectSuccess tlsHandshake tls_conn s := by
  intro pre
  induction pre with
  | nil =>
      intro post a s err0 hpre ha
      simp [TcpClient.connectLoop, ha]
  | cons x xs ih =>
      intro post a s err0 hpre ha
      obtain ⟨e, hx⟩ := hpre x (by simp)
      simp only [List.cons_append, TcpClient.connectLoop, hx]
      exact ih post a s (some e) (fun y hy => hpre y (by simp [hy])) ha

lemma wsConnectLoop_all_fail
    (tcpConnect : SockAddr → Except String Nat)
    (wsHandshake : Nat → WsConnectorModel → Nat → Except String Nat)
    (uri : Nat) (conn : WsConnectorModel) :
    ∀ (l : List SockAddr) (a : SockAddr) (errf : SockAddr → String)
      (err0 : Option String),
      (∀ x ∈ l ++ [a], tcpConnect x = .error (errf x)) →
      WebSocketClient.connectLoop tcpConnect wsHandshake uri conn (l ++ [a]) err0 =
        .error (.io (errf a)) := by
  intro l
  induction l with
  | nil =>
      intro a errf err0 h
      have ha := h a (by simp)
      simp [WebSocketClient.connectLoop, ha]
  | cons x xs ih =>
      intro a errf err0 h
      have hx := h x (by simp)
      have hrest : ∀ y ∈ xs ++ [a], tcpConnect y = .error (errf y) := by
        intro y hy
        exact h y (by simp at hy ⊢; tauto)
      simp only [List.cons_append, WebSocketClient.connectLoop, hx]
      exact ih a errf (some (errf x)) hrest

lemma wsConnectLoop_first_success
    (tcpConnect : SockAddr → Except String Nat)
    (wsHandshake : Nat → WsConnectorModel → Nat → Except String Nat)
    (uri : Nat) (conn : WsConnectorModel) :
    ∀ (pre post : List SockAddr) (a : SockAddr) (s : Nat) (err0 : Option String),
      (∀ x ∈ pre, ∃ e, tcpConnect x = .error e) →
      tcpConnect a = .ok s →
      WebSocketClient.connectLoop tcpConnect wsHandshake uri conn
          (pre ++ a :: post) err0 =
        WebSocketClient.connectSuccess wsHandshake uri conn s := by
  intro pre
  induction pre with
  | nil =>
      intro post a s err0 hpre ha
      simp [WebSocketClient.connectLoop, ha]
  | cons x xs ih =>
      intro post a s err0 hpre ha
      obtain ⟨e, hx⟩ := hpre x (by simp)
      simp only [List.cons_append, WebSocketClient.connectLoop, hx]
      exact ih post a s (some e) (fun y hy => hpre y (by simp [hy])) ha

/-- C5: both `TcpClient::connect` and `WebSocketClient::connect` walk the
stored addresses in stored order: every per-address TCP connect failure is
remembered and the walk continues, with the result determined by the first
address whose TCP connect succeeds; if every address fails the last error
is surfaced as `ClientError::Io`; and on an empty stored list connect
fails with `EmptyResolved` (lifted into `ClientError::Dns`). -/
theorem connect_address_walk_spec
    (tcpConnect : SockAddr → Except String Nat)
    (tlsHandshake : Nat → Nat → Except String Nat)
    (wsHandshake : Nat → WsConnectorModel → Nat → Except String Nat)
    (tls_conn : Option (RustlsClientConfig × Nat))
    (uri : Nat) (conn : WsConnectorModel) (nodelay : Bool) :
    (TcpClient.connect tcpConnect tlsHandshake
        { addr := [], tls_conn := tls_conn, tcp_nodelay := nodelay } =
      .error (.dns .emptyResolved)) ∧
    (WebSocketClient.connect tcpConnect wsHandshake
        { uri := uri, addrs := [], ws_conn := conn, tcp_nodelay := nodelay } =
      .error (.dns .emptyResolved)) ∧
    (∀ (l : List SockAddr) (a : SockAddr) (errf : SockAddr → String),
      (∀ x ∈ l ++ [a], tcpConnect x = .error (errf x)) →
      TcpClient.connect tcpConnect tlsHandshake
          { addr := l ++ [a], tls_conn := tls_conn, tcp_nodelay := nodelay } =
        .error (.io (errf a))) ∧
    (∀ (l : List SockAddr) (a : SockAddr) (errf : SockAddr → String),
      (∀ x ∈ l ++ [a], tcpConnect x = .error (errf x)) →
      WebSocketClient.connect tcpConnect wsHandshake
          { uri := uri, addrs := l ++ [a], ws_conn := conn,
            tcp_nodelay := nodelay } =
        .error (.io (errf a))) ∧
    (∀ (pre post : List SockAddr) (a : SockAddr) (s : Nat),
      (∀ x ∈ pre, ∃ e, tcpConnect x = .error e) →
      tcpConnect a = .ok s →
      TcpClient.connect tcpConnect tlsHandshake
          { addr := pre ++ a :: post, tls_conn := tls_conn,
            tcp_nodelay := nodelay } =
        TcpClient.connectSuccess tlsHandshake tls_conn s) ∧
    (∀ (pre post : List SockAddr) (a : SockAddr) (s : Nat),
      (∀ x ∈ pre, ∃ e, tcpConnect x = .error e) →
      tcpConnect a = .ok s →
      WebSocketClient.connect tcpConnect wsHandshake
          { uri := uri, addrs := pre ++ a :: post, ws_conn := conn,
            tcp_nodelay := nodelay } =
        WebSocketClient.connectSuccess wsHandshake uri conn s) := by
  refine ⟨rfl, rfl, ?_, ?_, ?_, ?_⟩
  · intro l a errf h
    exact tcpConnectLoop_all_fail tcpConnect tlsHandshake tls_conn
      l a errf none h
  · intro l a errf h
    exact wsConnectLoop_all_fail tcpConnect wsHandshake uri conn
      l a errf none h
  · intro pre post a s hpre ha
    exact tcpConnectLoop_first_success tcpConnect tlsHandshake tls_conn
      pre post a s none hpre ha
  · intro pre post a s hpre ha
    exact wsConnectLoop_first_success tcpConnect wsHandshake uri
      conn pre post a s none hpre ha

/-- Concrete two-address book for the connect witnesses: port 1 is refused,
port 2 accepts as socket 7. -/
def cexTcpConnect : SockAddr → Except String Nat :=
  fun x => if x.port = 2 then .ok 7 else .error "connection refused"

/-- C5 witness: the walk theorem at a concrete two-address list — first
address refused, second accepted — and at concrete all-fail and empty
lists. -/
theorem connect_address_walk_spec_witness :
    TcpClient.connect cexTcpConnect (fun _ s => .ok (s + 1))
        { addr := [], tls_conn := none, tcp_nodelay := false } =
      .error (.dns .emptyResolved) ∧
    TcpClient.connect cexTcpConnect (fun _ s => .ok (s + 1))
        { addr := [{ ip := { family := .v4, id := 0 }, port := 1 },
                   { ip := { family := .v4, id := 1 }, port := 1 }],
          tls_conn := none, tcp_nodelay := false } =
      .error (.io "connection refused") ∧
    TcpClient.connect cexTcpConnect (fun _ s => .ok (s + 1))
        { addr := [{ ip := { family := .v4, id := 0 }, port := 1 },
                   { ip := { family := .v4, id := 1 }, port := 2 }],
          tls_conn := none, tcp_nodelay := false } =
      TcpClient.connectSuccess (fun _ s => .ok (s + 1)) none 7 ∧
    WebSocketClient.connect cexTcpConnect (fun _ _ s => .ok (s + 2))
        { uri := 0, addrs := [{ ip := { family := .v4, id := 0 }, port := 1 },
                              { ip := { family := .v4, id := 1 }, port := 2 }],
          ws_conn := .plain, tcp_nodelay := false } =
      WebSocketClient.connectSuccess (fun _ _ s => .ok (s + 2)) 0 .plain 7 := by
  refine ⟨?_, ?_, ?_, ?_⟩
  · exact (connect_address_walk_spec cexTcpConnect (fun _ s => .ok (s + 1))
      (fun _ _ s => .ok (s + 2)) none 0 .plain false).1
  · exact (connect_address_walk_spec cexTcpConnect (fun _ s => .ok (s + 1))
      (fun _ _ s => .ok (s + 2)) none 0 .plain false).2.2.1
      [{ ip := { family := .v4, id := 0 }, port := 1 }]
      { ip := { family := .v4, id := 1 }, port := 1 }
      (fun _ => "connection refused") (by decide)
  · exact (connect_address_walk_spec cexTcpConnect (fun _ s => .ok (s + 1))
      (fun _ _ s => .ok (s + 2)) none 0 .plain false).2.2.2.2.1
      [{ ip := { family := .v4, id := 0 }, port := 1 }] []
      { ip := { family := .v4, id := 1 }, port := 2 } 7
      (by intro x hx
          refine ⟨"connection refused", ?_⟩
          simp at hx
          subst hx
          rfl)
      rfl
  · exact (connect_address_walk_spec cexTcpConnect (fun _ s => .ok (s + 1))
      (fun _ _ s => .ok (s + 2)) none 0 .plain false).2.2.2.2.2
      [{ ip := { family := .v4, id := 0 }, port := 1 }] []
      { ip := { family := .v4, id := 1 }, port := 2 } 7
      (by intro x hx
          refine ⟨"connection refused", ?_⟩
          simp at hx
          subst hx
          rfl)
      rfl

/-- C7: in `WebSocketClient::connect`, once a TCP connect succeeds on some
address, a failing WebSocket handshake on that socket returns
`ClientError::Connect(msg)` immediately — the result is the same for every
tail of remaining addresses, so none of them is attempted. -/
theorem ws_handshake_failure_no_fallback
    (tcpConnect : SockAddr → Except String Nat)
    (wsHandshake : Nat → WsConnectorModel → Nat → Except String Nat)
    (uri : Nat) (conn : WsConnectorModel) (nodelay : Bool)
    (pre post : List SockAddr) (a : SockAddr) (s : Nat) (msg : String)
    (hpre : ∀ x ∈ pre, ∃ e, tcpConnect x = .error e)
    (ha : tcpConnect a = .ok s)
    (hs : wsHandshake uri conn s = .error msg) :
    WebSocketClient.connect tcpConnect wsHandshake
        { uri := uri, addrs := pre ++ a :: post, ws_conn := conn,
          tcp_nodelay := nodelay } =
      .error (.connect msg) := by
  have h := wsConnectLoop_first_success tcpConnect wsHandshake
    uri conn pre post a s none hpre ha
  unfold WebSocketClient.connect
  simp only []
  rw [h]
  simp [WebSocketClient.connectSuccess, hs]

/-- C7 witness: a failing handshake on the first (successful) address with
a further address still available yields `Connect("bad handshake")`. -/
theorem ws_handshake_failure_no_fallback_witness :
    WebSocketClient.connect
        (fun x => if x.port = 9 then .error "refused" else .ok 7)
        (fun _ _ _ => .error "bad handshake")
        { uri := 0,
          addrs := [{ ip := { family := .v4, id := 0 }, port := 1 },
                    { ip := { family := .v4, id := 1 }, port := 2 }],
          ws_conn := .plain, tcp_nodelay := false } =
      .error (.connect "bad handshake") :=
  ws_handshake_failure_no_fallback
    (fun x => if x.port = 9 then .error "refused" else .ok 7)
    (fun _ _ _ => .error "bad handshake") 0 .plain false
    [] [{ ip := { family := .v4, id := 1 }, port := 2 }]
    { ip := { family := .v4, id := 0 }, port := 1 } 7 "bad handshake"
    (by intro x hx; exact absurd hx (by simp)) rfl rfl

/-! ## WebSocket byte-stream adapter

Models `WebSocketClientStream` (`src/websocket/client.rs` lines 119-245)
and `WebSocketServerStream` (`src/websocket/server.rs` lines 108-235).
The `AsyncBufRead`/`AsyncRead`/`AsyncWrite` bodies of the two files are
line-for-line identical — the client uses tungstenite `Message` (Binary /
Text / Ping / Pong / Close / Frame), the server axum's `Message` (same
names minus Frame), and both match only `Binary` and `Text`, treating
every other kind with `_ => continue` — so one model covers both. -/

/-- Inbound/outbound WebSocket message.  Payloads are byte lists; a `Text`
payload stands for the message's UTF-8 bytes (`Bytes::from` is applied to
either in the source). -/
inductive WsMessage where
  | binary (data : List Nat)
  | text (data : List Nat)
  | ping (data : List Nat)
  | pong (data : List Nat)
  | close
  | frame
deriving DecidableEq, Repr

namespace WsAdapter

/-- Receive-side state of an adapter stream: `rx` is the not-yet-polled
inbound message sequence (its end models the receiver returning
`Poll::Ready(None)`), `chunk` the `Option<Bytes>` buffer holding the
not-yet-consumed bytes of the last data message. -/
structure State where
  rx : List WsMessage
  chunk : Option (List Nat)
deriving DecidableEq, Repr

/-- Mirrors `has_chunk` (client lines 135-141 / server lines 125-131):
true iff a chunk is present with `remaining() > 0`. -/
def has_chunk (chunk : Option (List Nat)) : Bool :=
  match chunk with
  | some c => c.length > 0
  | none => false

/-- Remaining bytes of the `Option<Bytes>` buffer (`Bytes::chunk` returns
exactly the remaining bytes of the contiguous buffer). -/
def chunkBytes (chunk : Option (List Nat)) : List Nat :=
  chunk.getD []

/-- Mirrors the `poll_fill_buf` loop (client lines 144-172 / server lines
134-162) on a receiver that is never `Pending` and yields no errors: while
no chunk has remaining bytes, poll the next message — `Binary`/`Text`
payloads become the new chunk (and the loop re-checks, so an empty payload
is skipped like a control frame), any other message kind is skipped; at
stream end return the empty slice; once a chunk has remaining bytes return
it.  Result: (new chunk buffer, remaining messages, returned slice). -/
def fill_buf (chunk : Option (List Nat)) (rx : List WsMessage) :
    Option (List Nat) × List WsMessage × List Nat :=
  if has_chunk chunk then (chunk, rx, chunkBytes chunk)
  else
    match rx with
    | [] => (chunk, [], [])
    | .binary data :: rest => fill_buf (some data) rest
    | .text data :: rest => fill_buf (some data) rest
    | .ping _ :: rest => fill_buf chunk rest
    | .pong _ :: rest => fill_buf chunk rest
    | .close :: rest => fill_buf chunk rest
    | .frame :: rest => fill_buf chunk rest

/-- Mirrors `consume` (client lines 174-180 / server lines 164-170):
`amt == 0` does nothing; with a chunk present, `Bytes::advance(amt)`
advances it — and panics when `amt` exceeds the remaining byte count,
modelled by `none`; with no chunk present nothing happens. -/
def consume (chunk : Option (List Nat)) (amt : Nat) : Option (Option (List Nat)) :=
  if amt > 0 then
    match chunk with
    | some c => if amt ≤ c.length then some (some (c.drop amt)) else none
    | none => some none
  else
    some chunk

/-- Mirrors `poll_read` (client lines 183-205 / server lines 173-195) for
a read buffer of capacity `cap`: zero capacity returns immediately;
otherwise `fill_buf`, copy `min(inner.len, cap)` bytes, `consume` them.
Returns the new state and the bytes copied out (`none` = panic). -/
def poll_read (s : State) (cap : Nat) : Option (State × List Nat) :=
  if cap = 0 then some (s, [])
  else
    let r := fill_buf s.chunk s.rx
    let len := min r.2.2.length cap
    match consume r.1 len with
    | some chunk2 => some ({ rx := r.2.1, chunk := chunk2 }, r.2.2.take len)
    | none => none

/-- Mirrors the success path of `poll_write` (client lines 208-224 /
server lines 198-214): when the sink is ready and `start_send` succeeds,
exactly one `Message::binary(buf)` is enqueued and `Ok(buf.len())` is
returned. -/
def poll_write (sent : List WsMessage) (buf : List Nat) : List WsMessage × Nat :=
  (sent ++ [.binary buf], buf.length)

/-- Concatenated payloads of the Binary and Text messages of a sequence,
in arrival order — the byte stream the adapter is meant to surface. -/
def dataBytes : List WsMessage → List Nat
  | [] => []
  | .binary d :: rest => d ++ dataBytes rest
  | .text d :: rest => d ++ dataBytes rest
  | .ping _ :: rest => dataBytes rest
  | .pong _ :: rest => dataBytes rest
  | .close :: rest => dataBytes rest
  | .frame :: rest => dataBytes rest

/-- Bytes not yet surfaced by a stream state: the chunk's remaining bytes
followed by the payloads of the unpolled data messages. -/
def remainingData (s : State) : List Nat :=
  chunkBytes s.chunk ++ dataBytes s.rx

/-- Driver for the read protocol: perform successive reads (the `i`-th
with capacity `caps i`) until a read returns no bytes (EOF), collecting
everything returned.  `fuel` bounds the number of reads; `none` = fuel
exhausted or a panic. -/
def read_all (fuel : Nat) (s : State) (caps : Nat → Nat) (i : Nat) :
    Option (List Nat) :=
  match fuel with
  | 0 => none
  | fuel + 1 =>
      match poll_read s (caps i) with
      | none => none
      | some (s', out) =>
          if out.isEmpty then some []
          else
            match read_all fuel s' caps (i + 1) with
            | none => none
            | some rest => some (out ++ rest)

end WsAdapter

example : WsAdapter.fill_buf none [.ping [1], .binary [2, 3]] =
    (some [2, 3], [], [2, 3]) := rfl

example : WsAdapter.read_all 5 { rx := [.binary [1], .close, .text [2]], chunk := none }
    (fun _ => 1) 0 = some [1, 2] := rfl

/-! ## C1 / C6 / C10: adapter stream properties -/

lemma WsAdapter.chunkBytes_of_not_has_chunk (chunk : Option (List Nat))
    (h : WsAdapter.has_chunk chunk = false) : WsAdapter.chunkBytes chunk = [] := by
  cases chunk with
  | none => rfl
  | some c =>
      cases c with
      | nil => rfl
      | cons x xs => simp [WsAdapter.has_chunk] at h

lemma WsAdapter.fill_buf_of_has_chunk (chunk : Option (List Nat))
    (rx : List WsMessage) (hc : WsAdapter.has_chunk chunk = true) :
    WsAdapter.fill_buf chunk rx = (chunk, rx, WsAdapter.chunkBytes chunk) := by
  cases rx with
  | nil => simp [WsAdapter.fill_buf, hc]
  | cons m rest => cases m <;> simp [WsAdapter.fill_buf, hc]

lemma WsAdapter.fill_buf_spec :
    ∀ (rx : List WsMessage) (chunk : Option (List Nat)),
      (WsAdapter.fill_buf chunk rx).2.2 =
        WsAdapter.chunkBytes (WsAdapter.fill_buf chunk rx).1 ∧
      WsAdapter.chunkBytes (WsAdapter.fill_buf chunk rx).1 ++
          WsAdapter.dataBytes (WsAdapter.fill_buf chunk rx).2.1 =
        WsAdapter.chunkBytes chunk ++ WsAdapter.dataBytes rx ∧
      ((WsAdapter.fill_buf chunk rx).2.2 = [] ↔
        WsAdapter.chunkBytes chunk ++ WsAdapter.dataBytes rx = []) := by
  intro rx
  induction rx with
  | nil =>
      intro chunk
      by_cases hc : WsAdapter.has_chunk chunk = true
      · have hne : WsAdapter.chunkBytes chunk ≠ [] := by
          cases chunk with
          | none => simp [WsAdapter.has_chunk] at hc
          | some c =>
              cases c with
              | nil => simp [WsAdapter.has_chunk] at hc
              | cons x xs => simp [WsAdapter.chunkBytes]
        simp [WsAdapter.fill_buf, hc, WsAdapter.dataBytes, hne]
      · have hc' : WsAdapter.has_chunk chunk = false := by
          revert hc; cases WsAdapter.has_chunk chunk <;> simp
        have hz := WsAdapter.chunkBytes_of_not_has_chunk chunk hc'
        simp [WsAdapter.fill_buf, hc', WsAdapter.dataBytes, hz]
  | cons m rest ih =>
      intro chunk
      by_cases hc : WsAdapter.has_chunk chunk = true
      · have hne : WsAdapter.chunkBytes chunk ≠ [] := by
          cases chunk with
          | none => simp [WsAdapter.has_chunk] at hc
          | some c =>
              cases c with
              | nil => simp [WsAdapter.has_chunk] at hc
              | cons x xs => simp [WsAdapter.chunkBytes]
        rw [WsAdapter.fill_buf_of_has_chunk chunk (m :: rest) hc]
        simp [hne]
      · have hc' : WsAdapter.has_chunk chunk = false := by
          revert hc; cases WsAdapter.has_chunk chunk <;> simp
        have hz := WsAdapter.chunkBytes_of_not_has_chunk chunk hc'
        cases m with
        | binary d =>
            have h := ih (some d)
            simp only [WsAdapter.fill_buf, hc', Bool.false_eq_true, if_false]
            refine ⟨h.1, ?_, ?_⟩
            · rw [h.2.1, hz]
              simp [WsAdapter.chunkBytes, WsAdapter.dataBytes]
            · rw [h.2.2, hz]
              simp [WsAdapter.chunkBytes, WsAdapter.dataBytes]
        | text d =>
            have h := ih (some d)
            simp only [WsAdapter.fill_buf, hc', Bool.false_eq_true, if_false]
            refine ⟨h.1, ?_, ?_⟩
            · rw [h.2.1, hz]
              simp [WsAdapter.chunkBytes, WsAdapter.dataBytes]
            · rw [h.2.2, hz]
              simp [WsAdapter.chunkBytes, WsAdapter.dataBytes]
        | ping d =>
            have h := ih chunk
            simp only [WsAdapter.fill_buf, hc', Bool.false_eq_true, if_false]
            refine ⟨h.1, ?_, ?_⟩
            · rw [h.2.1]
              simp [WsAdapter.dataBytes]
            · rw [h.2.2]
              simp [WsAdapter.dataBytes]
        | pong d =>
            have h := ih chunk
            simp only [WsAdapter.fill_buf, hc', Bool.false_eq_true, if_false]
            refine ⟨h.1, ?_, ?_⟩
            · rw [h.2.1]
              simp [WsAdapter.dataBytes]
            · rw [h.2.2]
              simp [WsAdapter.dataBytes]
        | close =>
            have h := ih chunk
            simp only [WsAdapter.fill_buf, hc', Bool.false_eq_true, if_false]
            refine ⟨h.1, ?_, ?_⟩
            · rw [h.2.1]
              simp [WsAdapter.dataBytes]
            · rw [h.2.2]
              simp [WsAdapter.dataBytes]
        | frame =>
            have h := ih chunk
            simp only [WsAdapter.fill_buf, hc', Bool.false_eq_true, if_false]
            refine ⟨h.1, ?_, ?_⟩
            · rw [h.2.1]
              simp [WsAdapter.dataBytes]
            · rw [h.2.2]
              simp [WsAdapter.dataBytes]

lemma WsAdapter.poll_read_spec (s : WsAdapter.State) (cap : Nat) (hcap : 0 < cap) :
    ∃ s' out, WsAdapter.poll_read s cap = some (s', out) ∧
      out ++ WsAdapter.remainingData s' = WsAdapter.remainingData s ∧
      (out = [] ↔ WsAdapter.remainingData s = []) := by
  have hcapne : ¬ cap = 0 := by omega
  obtain ⟨hs1, hs2, hs3⟩ := WsAdapter.fill_buf_spec s.rx s.chunk
  rcases hEq : WsAdapter.fill_buf s.chunk s.rx with ⟨c', rx', slice⟩
  rw [hEq] at hs1 hs2 hs3
  simp only at hs1 hs2 hs3
  simp only [WsAdapter.poll_read, if_neg hcapne, hEq]
  cases slice with
  | nil =>
      have hlen : min ([] : List Nat).length cap = 0 := by simp
      rw [hlen]
      simp only [WsAdapter.consume, gt_iff_lt, Nat.lt_irrefl, if_false]
      refine ⟨{ rx := rx', chunk := c' }, [], rfl, ?_, ?_⟩
      · simpa [WsAdapter.remainingData] using hs2
      · exact ⟨fun _ => hs3.mp rfl, fun _ => rfl⟩
  | cons x xs =>
      have hc' : c' = some (x :: xs) := by
        cases c' with
        | none => simp [WsAdapter.chunkBytes] at hs1
        | some c => simp [WsAdapter.chunkBytes] at hs1; rw [hs1]
      have hlen1 : 0 < min (x :: xs).length cap := by
        simp [Nat.lt_min]; omega
      have hlen2 : min (x :: xs).length cap ≤ (x :: xs).length :=
        Nat.min_le_left _ _
      rw [hc']
      simp only [WsAdapter.consume, gt_iff_lt, if_pos hlen1, if_pos hlen2]
      refine ⟨_, _, rfl, ?_, ?_⟩
      · show (x :: xs).take (min (x :: xs).length cap) ++
            WsAdapter.remainingData
              { rx := rx', chunk := some ((x :: xs).drop (min (x :: xs).length cap)) } =
          WsAdapter.remainingData s
        rw [WsAdapter.remainingData, WsAdapter.remainingData]
        show (x :: xs).take (min (x :: xs).length cap) ++
            ((x :: xs).drop (min (x :: xs).length cap) ++ WsAdapter.dataBytes rx') =
          WsAdapter.chunkBytes s.chunk ++ WsAdapter.dataBytes s.rx
        rw [← List.append_assoc, List.take_append_drop]
        rw [hc'] at hs2
        simpa [WsAdapter.chunkBytes] using hs2
      · constructor
        · intro h
          obtain ⟨k, hk⟩ : ∃ k, min (x :: xs).length cap = k + 1 :=
            ⟨min (x :: xs).length cap - 1, by omega⟩
          rw [hk] at h
          simp at h
        · intro h
          have := hs3.mpr h
          simp at this

lemma WsAdapter.read_all_spec :
    ∀ (fuel : Nat) (s : WsAdapter.State) (caps : Nat → Nat) (i : Nat),
      (∀ j, 0 < caps j) →
      (WsAdapter.remainingData s).length < fuel →
      WsAdapter.read_all fuel s caps i = some (WsAdapter.remainingData s) := by
  intro fuel
  induction fuel with
  | zero =>
      intro s caps i hcaps hf
      exact absurd hf (Nat.not_lt_zero _)
  | succ fuel ih =>
      intro s caps i hcaps hf
      obtain ⟨s', out, hpr, hcat, hiff⟩ := WsAdapter.poll_read_spec s (caps i) (hcaps i)
      simp only [WsAdapter.read_all, hpr]
      by_cases ho : out = []
      · rw [hiff.mp ho]
        simp [ho]
      · have hoNe : out.isEmpty = false := by
          cases out with
          | nil => exact absurd rfl ho
          | cons y ys => rfl
        have hlt : (WsAdapter.remainingData s').length < fuel := by
          have hlen : out.length + (WsAdapter.remainingData s').length =
              (WsAdapter.remainingData s).length := by
            rw [← hcat, List.length_append]
          have hop : 0 < out.length := by
            cases out with
            | nil => exact absurd rfl ho
            | cons y ys => simp
          omega
        rw [hoNe]
        simp only [Bool.false_eq_true, if_false]
        rw [ih s' caps (i + 1) hcaps hlt]
        exact congrArg some hcat

/-- C1: over any inbound message sequence, driving the adapter's read
protocol to EOF returns (without panic) exactly the concatenation of the
payloads of the Binary and Text messages in arrival order — Ping, Pong,
Close and other control frames contribute no bytes — for every schedule of
positive per-read buffer capacities and any sufficient read budget; and
once the receiver's message stream is exhausted (with no buffered chunk
bytes), `fill_buf` returns the empty slice (EOF). -/
theorem ws_adapter_read_concat_spec (msgs : List WsMessage)
    (caps : Nat → Nat) (fuel : Nat)
    (hcaps : ∀ j, 0 < caps j)
    (hfuel : (WsAdapter.dataBytes msgs).length < fuel) :
    WsAdapter.read_all fuel { rx := msgs, chunk := none } caps 0 =
      some (WsAdapter.dataBytes msgs) ∧
    (∀ chunk, WsAdapter.has_chunk chunk = false →
      (WsAdapter.fill_buf chunk []).2.2 = []) := by
  constructor
  · have hr : WsAdapter.remainingData { rx := msgs, chunk := none } =
        WsAdapter.dataBytes msgs := by
      simp [WsAdapter.remainingData, WsAdapter.chunkBytes]
    have := WsAdapter.read_all_spec fuel { rx := msgs, chunk := none } caps 0
      hcaps (by rw [hr]; exact hfuel)
    rw [hr] at this
    exact this
  · intro chunk h
    simp [WsAdapter.fill_buf, h]

/-- C1 witness: a concrete trace — Ping, Binary[1,2,3], Pong, Text[4,5],
Close, empty Binary — read with 2-byte buffers surfaces [1,2,3,4,5]. -/
theorem ws_adapter_read_concat_spec_witness :
    WsAdapter.read_all 6
        { rx := [.ping [9], .binary [1, 2, 3], .pong [], .text [4, 5],
                 .close, .binary []],
          chunk := none }
        (fun _ => 2) 0 =
      some (WsAdapter.dataBytes
        [.ping [9], .binary [1, 2, 3], .pong [], .text [4, 5],
         .close, .binary []]) ∧
    (∀ chunk, WsAdapter.has_chunk chunk = false →
      (WsAdapter.fill_buf chunk []).2.2 = []) :=
  ws_adapter_read_concat_spec
    [.ping [9], .binary [1, 2, 3], .pong [], .text [4, 5], .close, .binary []]
    (fun _ => 2) 6 (fun _ => Nat.succ_pos 1) (by decide)

/-- C6: a completed `write(buf)` on either adapter enqueues exactly one
Binary message whose payload equals `buf` and reports `buf.len()` bytes
written — in particular also for the empty buffer. -/
theorem ws_adapter_write_spec (sent : List WsMessage) (buf : List Nat) :
    (WsAdapter.poll_write sent buf).1 = sent ++ [WsMessage.binary buf] ∧
    (WsAdapter.poll_write sent buf).2 = buf.length ∧
    (WsAdapter.poll_write sent []).2 = 0 :=
  ⟨rfl, rfl, rfl⟩

/-- C10: `consume(amt)` with no chunk buffered is a no-op for every `amt`
(no panic, no state change); `consume(0)` never changes the chunk; and a
panic occurs exactly when a chunk is present and `amt` exceeds its
remaining byte count. -/
theorem ws_adapter_consume_spec :
    (∀ amt, WsAdapter.consume none amt = some none) ∧
    (∀ chunk, WsAdapter.consume chunk 0 = some chunk) ∧
    (∀ chunk amt, WsAdapter.consume chunk amt = none ↔
      ∃ c, chunk = some c ∧ c.length < amt) := by
  refine ⟨?_, ?_, ?_⟩
  · intro amt
    cases amt with
    | zero => rfl
    | succ k => simp [WsAdapter.consume]
  · intro chunk
    simp [WsAdapter.consume]
  · intro chunk amt
    cases chunk with
    | none =>
        cases amt with
        | zero => simp [WsAdapter.consume]
        | succ k => simp [WsAdapter.consume]
    | some c =>
        cases amt with
        | zero => simp [WsAdapter.consume]
        | succ k =>
            by_cases h : k + 1 ≤ c.length
            · simp [WsAdapter.consume, h]
            · simp [WsAdapter.consume, h]
              omega

/-! ## TLS server policy, from `src/tls/option.rs` -/

/-- Mirrors `TlsCertOption` (`src/tls/option.rs` lines 48-53); paths and
PEM text are strings, file contents are modelled as the string of their
bytes. -/
inductive TlsCertOption where
  | file (cert : String) (key : String)
  | text (certs : List String) (key : String)
deriving DecidableEq, Repr

/-- Mirrors `TlsServerOption` (`src/tls/option.rs` lines 40-46). -/
structure TlsServerOption where
  alpn : List String
  certificate : TlsCertOption
deriving DecidableEq, Repr

/-- Environment of the server-config conversion: `fs` models opening and
reading a file (`io::Error` text on failure), `pemCerts` models
`rustls_pemfile::certs` collected over the reader's content, `pemKey`
models `rustls_pemfile::private_key` (`none` = no PEM key block found),
and `singleCertCheck` models the validation inside
`ServerConfig::builder().with_single_cert` (`some msg` = rejection).
Parsed certificates and keys are abstract DER values (`Nat`). -/
structure TlsServerEnv where
  fs : String → Except String String
  pemCerts : String → Except String (List Nat)
  pemKey : String → Except String (Option Nat)
  singleCertCheck : List Nat → Nat → Option String

/-- Mirrors `load_certs` (`src/tls/option.rs` lines 129-137): parse errors
map to `TlsError::InvalidCert`. -/
def load_certs (env : TlsServerEnv) (content : String) :
    Except TlsError (List Nat) :=
  match env.pemCerts content with
  | .error e => .error (.invalidCert e)
  | .ok certs => .ok certs

/-- Mirrors `load_priv_key` (`src/tls/option.rs` lines 139-147): parse
errors map to `TlsError::InvalidKey`, and a missing key block to
`InvalidKey("not found")`. -/
def load_priv_key (env : TlsServerEnv) (content : String) :
    Except TlsError Nat :=
  match env.pemKey content with
  | .error e => .error (.invalidKey e)
  | .ok none => .error (.invalidKey "not found")
  | .ok (some key) => .ok key

/-- Observable part of `rustls::ServerConfig`: the certified chain and key
installed by `with_single_cert`, plus the ALPN list. -/
structure RustlsServerConfig where
  certs : List Nat
  key : Nat
  alpn_protocols : List (List Nat)
deriving DecidableEq, Repr

/-- Mirrors `TryFrom<TlsServerOption> for ServerConfig`
(`src/tls/option.rs` lines 87-127): the `File` variant reads both paths
(open failures map to `TlsError::Io` via `?`), the `Text` variant joins
the cert strings with a newline and uses the key string directly; both
feed the same `load_certs` / `load_priv_key`; then
`with_single_cert` (failure mapped to `InvalidCert`) builds the config and
ALPN is set from the option when non-empty. -/
def tlsServerConfigTryFrom (env : TlsServerEnv) (option : TlsServerOption) :
    Except TlsError RustlsServerConfig :=
  match
    (match option.certificate with
     | .file cert key =>
         match env.fs cert with
         | .error e => .error (.io e)
         | .ok certContent =>
             match env.fs key with
             | .error e => .error (.io e)
             | .ok keyContent =>
                 match load_certs env certContent with
                 | .error e => .error e
                 | .ok certs =>
                     match load_priv_key env keyContent with
                     | .error e => .error e
                     | .ok k => .ok (certs, k)
     | .text certs key =>
         match load_certs env (String.intercalate "\n" certs) with
         | .error e => .error e
         | .ok cs =>
             match load_priv_key env key with
             | .error e => .error e
             | .ok k => .ok (cs, k) :
      Except TlsError (List Nat × Nat))
  with
  | .error e => .error e
  | .ok ck =>
      match env.singleCertCheck ck.1 ck.2 with
      | some e => .error (.invalidCert e)
      | none =>
          let config : RustlsServerConfig :=
            { certs := ck.1, key := ck.2, alpn_protocols := [] }
          if option.alpn.isEmpty then .ok config
          else .ok { config with alpn_protocols := option.alpn.map strBytes }

/-! ## C9: File and Text certificate variants agree -/

/-- C9: if the `File` variant's two files hold exactly the `Text`
variant's cert strings joined with a newline and its key string, then the
two conversions (same `alpn`) produce identical server configs — the same
parsed chain, the same private key, the same ALPN list. -/
theorem tls_server_file_text_equiv (env : TlsServerEnv) (alpn : List String)
    (certPath keyPath : String) (certs : List String) (key : String)
    (hc : env.fs certPath = .ok (String.intercalate "\n" certs))
    (hk : env.fs keyPath = .ok key) :
    tlsServerConfigTryFrom env
        { alpn := alpn, certificate := .file certPath keyPath } =
      tlsServerConfigTryFrom env
        { alpn := alpn, certificate := .text certs key } := by
  unfold tlsServerConfigTryFrom
  dsimp only
  rw [hc, hk]

/-- C9 witness: a concrete environment and payload where both variants
produce the same parsed chain, key and ALPN list. -/
theorem tls_server_file_text_equiv_witness :
    tlsServerConfigTryFrom
        { fs := fun p => if p = "k.pem" then .ok "KEY" else
            .ok (String.intercalate "\n" ["certA", "certB"]),
          pemCerts := fun c => .ok [c.length],
          pemKey := fun c => .ok (some c.length),
          singleCertCheck := fun _ _ => none }
        { alpn := ["h2"], certificate := .file "c.pem" "k.pem" } =
      tlsServerConfigTryFrom
        { fs := fun p => if p = "k.pem" then .ok "KEY" else
            .ok (String.intercalate "\n" ["certA", "certB"]),
          pemCerts := fun c => .ok [c.length],
          pemKey := fun c => .ok (some c.length),
          singleCertCheck := fun _ _ => none }
        { alpn := ["h2"], certificate := .text ["certA", "certB"] "KEY" } :=
  tls_server_file_text_equiv _ ["h2"] "c.pem" "k.pem" ["certA", "certB"] "KEY"
    (by simp) (by simp)
